import Mathlib

/-!
Shallow embedding of `app/services/user_service.py` from the
user_management repository, together with theorems settling the spec
claims about `UserService`.

The persistence gateway is modelled as an explicit list of `User` rows;
each service operation is a pure function from the database value (and
its other inputs) to its result and the updated database.  External
collaborators (password hashing, token generation, the email service,
the wall clock) are modelled as explicit parameters or simple functions,
matching the contracts stated for them in the spec.
-/

namespace UserMgmt

/-- Enumeration of user roles, per `app.models.user_model.UserRole`
(values named in the spec data model: ANONYMOUS, AUTHENTICATED, ADMIN,
MANAGER). -/
inductive UserRole where
  | ANONYMOUS
  | AUTHENTICATED
  | MANAGER
  | ADMIN
deriving DecidableEq, Repr

/-- Account row, per the spec data model (§3) and the attributes the
service reads and writes.  Identifiers and timestamps are modelled as
naturals. -/
structure User where
  id : Nat
  email : String
  nickname : String
  hashed_password : String
  role : UserRole
  email_verified : Bool
  verification_token : Option String
  is_locked : Bool
  failed_login_attempts : Nat
  last_login_at : Option Nat
  created_at : Nat
  first_name : String
  last_name : String
  is_professional : Bool
deriving DecidableEq, Repr

/-- Database state: the list of persisted user rows. -/
abbrev DB := List User

/-- Credential collaborator: one-way hash, modelled as an injective
tagging function (`hash(plaintext) -> digest`). -/
def hash_password (p : String) : String := "$2b$12$" ++ p

/-- Credential collaborator: `verify(plaintext, digest) -> bool`; true
exactly when the digest is the hash of the plaintext. -/
def verify_password (p : String) (digest : String) : Bool :=
  hash_password p == digest

/-- Embeds `UserService.get_by_email`: `select(User).filter_by(email=email)`
followed by `.scalars().first()` — the first row whose email field equals
the argument exactly (case-sensitive). -/
def get_by_email (db : DB) (email : String) : Option User :=
  db.find? (fun u => u.email == email)

/-- Embeds `UserService.get_by_nickname`: exact match on the nickname
column, first row. -/
def get_by_nickname (db : DB) (nickname : String) : Option User :=
  db.find? (fun u => u.nickname == nickname)

/-- Embeds `UserService.get_by_id`: exact match on the primary key,
first row. -/
def get_by_id (db : DB) (uid : Nat) : Option User :=
  db.find? (fun u => u.id == uid)

/-- Persisting a mutated, already-attached entity
(`session.add(user); await session.commit()`): the row with the entity's
primary key is replaced by the new value. -/
def updateUser (db : DB) (u : User) : DB :=
  db.map (fun v => if v.id == u.id then u else v)

/-- Configuration singleton (`get_settings()`): the service reads
`settings.max_login_attempts`. -/
structure Settings where
  max_login_attempts : Nat

/-- Embeds `UserService.login_user`.  `now` is the value
`datetime.now(timezone.utc)` observed during the call.  Returns the
authenticated user (or none) and the updated database. -/
def login_user (s : Settings) (db : DB) (email password : String) (now : Nat) :
    Option User × DB :=
  match get_by_email db email with
  | none => (none, db)
  | some user =>
    if user.email_verified = false then (none, db)
    else if user.is_locked then (none, db)
    else if verify_password password user.hashed_password then
      let u := { user with failed_login_attempts := 0, last_login_at := some now }
      (some u, updateUser db u)
    else
      let n := user.failed_login_attempts + 1
      let u := { user with
        failed_login_attempts := n,
        is_locked := if n ≥ s.max_login_attempts then true else user.is_locked }
      (none, updateUser db u)

/-- Embeds `UserService.verify_email_with_token`.  Note the source
compares `user.verification_token == token` where the stored token is
nullable and the supplied one is a plain string, so a cleared (null)
stored token never matches. -/
def verify_email_with_token (db : DB) (uid : Nat) (token : String) :
    Bool × DB :=
  match get_by_id db uid with
  | none => (false, db)
  | some user =>
    if user.email_verified then (false, db)
    else if user.verification_token == some token then
      let u := { user with
        email_verified := true,
        verification_token := none,
        role := if user.role = UserRole.ANONYMOUS then UserRole.AUTHENTICATED else user.role }
      (true, updateUser db u)
    else (false, db)

/-- Embeds `UserService.reset_password`: hash the new password, and if
the account exists overwrite the digest, zero the failure counter,
clear the lock, persist, return true; otherwise return false. -/
def reset_password (db : DB) (uid : Nat) (new_password : String) :
    Bool × DB :=
  let hp := hash_password new_password
  match get_by_id db uid with
  | none => (false, db)
  | some user =>
    let u := { user with
      hashed_password := hp,
      failed_login_attempts := 0,
      is_locked := false }
    (true, updateUser db u)

/-- Message accepted by the email collaborator
(`send_verification(account, token)`), recorded as recipient id plus
token. -/
structure EmailMsg where
  user_id : Nat
  token : String
deriving DecidableEq, Repr

/-- Embeds `UserService.create` after pydantic validation of
`UserCreate` (the validation collaborator is external; `email`,
`nickname`, `password` are the validated fields).  The source checks
email then nickname for an exact duplicate, hashes the password,
constructs the entity and commits it.  Defaults of the constructed
entity (role ANONYMOUS, email_verified false, verification_token null,
is_locked false, zero failed attempts) are modelled from the spec data
model, the `User` model itself being outside the service file.  The
`emails` argument is the state of the email collaborator queue: the
source's `create` receives an `email_service` parameter but never
invokes it and never calls `generate_verification_token`, so the queue
is returned unchanged and no token is stored. -/
def create (db : DB) (email nickname password : String)
    (newId now : Nat) (emails : List EmailMsg) :
    Option User × DB × List EmailMsg :=
  if (get_by_email db email).isSome then (none, db, emails)
  else if (get_by_nickname db nickname).isSome then (none, db, emails)
  else
    let u : User := {
      id := newId,
      email := email,
      nickname := nickname,
      hashed_password := hash_password password,
      role := UserRole.ANONYMOUS,
      email_verified := false,
      verification_token := none,
      is_locked := false,
      failed_login_attempts := 0,
      last_login_at := none,
      created_at := now,
      first_name := "",
      last_name := "",
      is_professional := false }
    (some u, db ++ [u], emails)

/-- Display row returned by `search_users`, per the `UserResponse`
construction in the source (no password hash; human-readable account
status). -/
structure UserResponse where
  id : Nat
  email : String
  nickname : String
  is_professional : Bool
  role : UserRole
  registration_date : Nat
  account_status : String
deriving DecidableEq, Repr

/-- Maps a user row to the `UserResponse` built at the end of
`search_users`: `account_status` is "Active" if not locked else
"Locked". -/
def toUserResponse (u : User) : UserResponse :=
  { id := u.id,
    email := u.email,
    nickname := u.nickname,
    is_professional := u.is_professional,
    role := u.role,
    registration_date := u.created_at,
    account_status := if u.is_locked then "Locked" else "Active" }

/-- Models one optional case-insensitive equality filter of
`search_users`: Python `if arg:` skips the filter when the argument is
None or the empty string, otherwise keeps the rows where
`lower(column) == lower(arg)`. -/
def filterOptCI (arg : Option String) (field : User → String)
    (rows : List User) : List User :=
  match arg with
  | none => rows
  | some s =>
    if s == "" then rows
    else rows.filter (fun u => (field u).toLower == s.toLower)

/-- Embeds `UserService.search_users`: the optional filters are applied
in source order (username, email, first_name, last_name, role,
account_status, registration date range), then pagination
(`offset(skip).limit(limit)`), then the mapping to `UserResponse`.
A falsy argument (None, or the empty string for the string filters)
applies no filter. -/
def search_users (db : DB)
    (username email first_name last_name : Option String)
    (role : Option UserRole) (account_status : Option String)
    (registration_date_from registration_date_to : Option Nat)
    (skip limit : Nat) : List UserResponse :=
  let q := db
  let q := filterOptCI username (fun u => u.nickname) q
  let q := filterOptCI email (fun u => u.email) q
  let q := filterOptCI first_name (fun u => u.first_name) q
  let q := filterOptCI last_name (fun u => u.last_name) q
  let q := match role with
    | none => q
    | some r => q.filter (fun u => u.role = r)
  let q := match account_status with
    | none => q
    | some s =>
      if s == "" then q
      else q.filter (fun u => u.is_locked == (s.toLower == "locked"))
  let q := match registration_date_from with
    | none => q
    | some d => q.filter (fun u => d ≤ u.created_at)
  let q := match registration_date_to with
    | none => q
    | some d => q.filter (fun u => u.created_at ≤ d)
  let q := (q.drop skip).take limit
  q.map toUserResponse

/-- Persistence-gateway failure (`sqlalchemy.exc.SQLAlchemyError`). -/
inductive DBError where
  | sqlalchemy
deriving DecidableEq, Repr

/-- Embeds `UserService._fetch_user` with an explicit failure flag for
the gateway call made inside `_execute_query`: when the `execute` or
`commit` raises `SQLAlchemyError`, `_execute_query` catches it, rolls
back and returns None, so the fetch yields None rather than raising. -/
def fetch_user (db : DB) (execFails : Bool) (pred : User → Bool) :
    Option User :=
  if execFails then none else db.find? pred

/-- Embeds `UserService.delete` with explicit failure flags for its two
gateway interactions.  The lookup goes through
`_execute_query` (failure absorbed to "not found"), but the subsequent
`session.delete(user); await session.commit()` is performed directly in
`delete` with no exception handler, so a `SQLAlchemyError` raised there
propagates out of the service. -/
def delete_user (db : DB) (uid : Nat) (fetchFails commitFails : Bool) :
    Except DBError (Bool × DB) :=
  match fetch_user db fetchFails (fun u => u.id == uid) with
  | none => Except.ok (false, db)
  | some user =>
    if commitFails then Except.error DBError.sqlalchemy
    else Except.ok (true, db.filter (fun v => v.id ≠ user.id))

/-- Sample verified, unlocked account used for concrete witnesses. -/
def mkUser (uid : Nat) (email nickname pw : String) : User :=
  { id := uid,
    email := email,
    nickname := nickname,
    hashed_password := hash_password pw,
    role := UserRole.AUTHENTICATED,
    email_verified := true,
    verification_token := none,
    is_locked := false,
    failed_login_attempts := 0,
    last_login_at := none,
    created_at := 0,
    first_name := "",
    last_name := "",
    is_professional := false }

/-- Well-formedness of a database row with respect to an email lookup:
the lookup finds exactly this row, and its primary key identifies it
uniquely in the database (the primary-key discipline the relational
gateway guarantees). -/
def EmailInv (db : DB) (email : String) (u : User) : Prop :=
  get_by_email db email = some u ∧ ∀ v ∈ db, v.id = u.id → v = u

instance (db : DB) (email : String) (u : User) :
    Decidable (EmailInv db email u) := by
  unfold EmailInv
  infer_instance

/-- Account state after one failed password check in `login_user`:
the counter is incremented and the lock is set when the counter reaches
`settings.max_login_attempts`. -/
def wrongStep (s : Settings) (u : User) : User :=
  { u with
    failed_login_attempts := u.failed_login_attempts + 1,
    is_locked :=
      if u.failed_login_attempts + 1 ≥ s.max_login_attempts then true
      else u.is_locked }

/-- Iterated login attempts with a fixed (wrong) password: the database
after `k` consecutive calls to `login_user`. -/
def loginIter (s : Settings) (email wp : String) (now : Nat) :
    Nat → DB → DB
  | 0, db => db
  | k + 1, db => (login_user s (loginIter s email wp now k db) email wp now).2

/-- Account state after `k` consecutive failed attempts starting from a
clean counter, with lock threshold `N`. -/
def lockedAfter (u : User) (N k : Nat) : User :=
  { u with failed_login_attempts := k, is_locked := decide (N ≤ k) }

/-- Sample account and database used to instantiate the theorems. -/
def sampleU : User := mkUser 1 "a@x.com" "alice" "Secret123!"

/-- Singleton database holding the sample account. -/
def sampleDB : DB := [sampleU]

/-- Locked variant of the sample account. -/
def lockedU : User := { sampleU with is_locked := true }

/-- Unverified variant of the sample account with a pending
verification token. -/
def unverifiedU : User :=
  { sampleU with
    email_verified := false,
    verification_token := some "t1",
    role := UserRole.ANONYMOUS }

/-- Account state produced by a successful `verify_email_with_token`:
verified, token cleared, ANONYMOUS promoted to AUTHENTICATED. -/
def verifiedStep (u : User) : User :=
  { u with
    email_verified := true,
    verification_token := none,
    role := if u.role = UserRole.ANONYMOUS then UserRole.AUTHENTICATED
      else u.role }

/-- Account state produced by `reset_password`: new digest, counter
zeroed, lock cleared. -/
def resetStep (np : String) (u : User) : User :=
  { u with
    hashed_password := hash_password np,
    failed_login_attempts := 0,
    is_locked := false }

/-- Second, locked sample account (distinct id and email). -/
def lockedB : User :=
  { mkUser 2 "b@x.com" "bob" "Pass123!" with is_locked := true }

/-- Two-account database used for the search witness. -/
def searchDB : DB := [sampleU, lockedB]

lemma updateUser_cons (w : User) (ws : List User) (v : User) :
    updateUser (w :: ws) v = (if w.id == v.id then v else w) :: updateUser ws v :=
  rfl

lemma find?_id_update (key : Nat) (u v : User) (hid : v.id = u.id) :
    ∀ l : List User, l.find? (fun x => x.id == key) = some u →
      (updateUser l v).find? (fun x => x.id == key) = some v := by
  intro l
  induction l with
  | nil => intro h; simp [List.find?] at h
  | cons w ws ih =>
    intro h
    rw [updateUser_cons]
    by_cases hw : w.id = key
    · have hb : (w.id == key) = true := by simpa using hw
      simp only [List.find?_cons, hb] at h
      have hwu : w = u := Option.some.inj h
      have hu : u.id = key := by rw [← hwu]; exact hw
      have hwid : (w.id == v.id) = true := by simp [hwu, hid]
      rw [if_pos hwid]
      have hvb : (v.id == key) = true := by simp [hid, hu]
      simp only [List.find?_cons, hvb]
    · have hb : (w.id == key) = false := by simpa using hw
      simp only [List.find?_cons, hb] at h
      have hu : u.id = key := by simpa using List.find?_some h
      have hwid : (w.id == v.id) = false := by
        simp only [beq_eq_false_iff_ne, ne_eq, hid, hu]
        exact hw
      rw [if_neg (by simp [hwid])]
      simp only [List.find?_cons, hb]
      exact ih h

lemma get_by_id_update (db : DB) (uid : Nat) (u v : User)
    (h : get_by_id db uid = some u) (hid : v.id = u.id) :
    get_by_id (updateUser db v) uid = some v :=
  find?_id_update uid u v hid db h

lemma EmailInv_update (email : String) (u v : User) (hid : v.id = u.id)
    (hem : v.email = u.email) :
    ∀ db : DB, EmailInv db email u → EmailInv (updateUser db v) email v := by
  intro db
  induction db with
  | nil =>
    intro h
    exact absurd h.1 (by simp [get_by_email, List.find?])
  | cons w ws ih =>
    intro h
    obtain ⟨h1, h2⟩ := h
    simp only [get_by_email] at h1
    rw [updateUser_cons]
    by_cases hwe : w.email = email
    · have hb : (w.email == email) = true := by simpa using hwe
      simp only [List.find?_cons, hb] at h1
      have hwu : w = u := Option.some.inj h1
      have hue : u.email = email := by rw [← hwu]; exact hwe
      have hwid : (w.id == v.id) = true := by simp [hwu, hid]
      rw [if_pos hwid]
      refine ⟨?_, ?_⟩
      · have hvb : (v.email == email) = true := by simp [hem, hue]
        simp only [get_by_email, List.find?_cons, hvb]
      · intro x hx hxid
        rcases List.mem_cons.mp hx with hx | hx
        · exact hx
        · obtain ⟨w2, hw2, hw2x⟩ := List.mem_map.mp hx
          by_cases hw2v : w2.id = v.id
          · rw [← hw2x]; simp [hw2v]
          · have hxw2 : x = w2 := by rw [← hw2x]; simp [hw2v]
            exact absurd (hxw2 ▸ hxid) hw2v
    · have hb : (w.email == email) = false := by simpa using hwe
      simp only [List.find?_cons, hb] at h1
      have hue : u.email = email := by simpa using List.find?_some h1
      have hwid : ¬ (w.id = v.id) := by
        intro hcon
        have hwu : w = u := h2 w (List.mem_cons_self w ws) (by rw [hcon, hid])
        exact hwe (by rw [hwu]; exact hue)
      have h2t : ∀ x ∈ ws, x.id = u.id → x = u :=
        fun x hx => h2 x (List.mem_cons_of_mem w hx)
      have ihr := ih ⟨h1, h2t⟩
      rw [if_neg (by simpa using hwid)]
      refine ⟨?_, ?_⟩
      · simp only [get_by_email, List.find?_cons, hb]
        exact ihr.1
      · intro x hx hxid
        rcases List.mem_cons.mp hx with hx | hx
        · exact absurd (hx ▸ hxid) hwid
        · exact ihr.2 x hx hxid

lemma get_by_id_of_EmailInv (email : String) (u : User) :
    ∀ db : DB, EmailInv db email u → get_by_id db u.id = some u := by
  intro db
  induction db with
  | nil =>
    intro h
    exact absurd h.1 (by simp [get_by_email, List.find?])
  | cons w ws ih =>
    intro h
    obtain ⟨h1, h2⟩ := h
    simp only [get_by_email] at h1
    simp only [get_by_id]
    by_cases hw : w.id = u.id
    · have hwu : w = u := h2 w (List.mem_cons_self w ws) hw
      simp only [List.find?_cons, hwu, beq_self_eq_true]
    · have hwe : ¬ (w.email = email) := by
        intro hcon
        have hbe : (w.email == email) = true := by simpa using hcon
        simp only [List.find?_cons, hbe] at h1
        exact hw (congrArg User.id (Option.some.inj h1))
      have hbe : (w.email == email) = false := by simpa using hwe
      simp only [List.find?_cons, hbe] at h1
      have h2t : ∀ x ∈ ws, x.id = u.id → x = u :=
        fun x hx => h2 x (List.mem_cons_of_mem w hx)
      have hb : (w.id == u.id) = false := by simpa using hw
      simp only [List.find?_cons, hb]
      exact ih ⟨h1, h2t⟩

lemma login_user_wrong (s : Settings) (db : DB) (wp : String) (now : Nat)
    (u : User) (h : get_by_email db u.email = some u)
    (hv : u.email_verified = true) (hl : u.is_locked = false)
    (hw : verify_password wp u.hashed_password = false) :
    login_user s db u.email wp now = (none, updateUser db (wrongStep s u)) := by
  simp [login_user, h, hv, hl, hw, wrongStep]

lemma login_user_correct (s : Settings) (db : DB) (email p : String)
    (now : Nat) (u : User)
    (h : get_by_email db email = some u)
    (hv : u.email_verified = true) (hl : u.is_locked = false)
    (hp : verify_password p u.hashed_password = true) :
    login_user s db email p now
      = (some { u with
          failed_login_attempts := 0,
          last_login_at := some now },
        updateUser db { u with
          failed_login_attempts := 0,
          last_login_at := some now }) := by
  simp [login_user, h, hv, hl, hp]

lemma loginIter_state (s : Settings) (db : DB) (u : User) (wp : String)
    (now : Nat) (hN : 1 ≤ s.max_login_attempts)
    (h : EmailInv db u.email u)
    (hv : u.email_verified = true) (hl : u.is_locked = false)
    (hf : u.failed_login_attempts = 0)
    (hw : verify_password wp u.hashed_password = false) :
    ∀ k, k ≤ s.max_login_attempts →
      EmailInv (loginIter s u.email wp now k db) u.email
        (lockedAfter u s.max_login_attempts k) := by
  intro k
  induction k with
  | zero =>
    intro _
    have h0 : lockedAfter u s.max_login_attempts 0 = u := by
      have hdec : decide (s.max_login_attempts ≤ 0) = false := by
        simp
        omega
      cases u
      simp_all [lockedAfter]
    show EmailInv db u.email (lockedAfter u s.max_login_attempts 0)
    rw [h0]
    exact h
  | succ k ih =>
    intro hk1
    have hk : k ≤ s.max_login_attempts := Nat.le_of_succ_le hk1
    have hklt : k < s.max_login_attempts := hk1
    have ihk := ih hk
    have huk_l : (lockedAfter u s.max_login_attempts k).is_locked = false := by
      simp [lockedAfter]
      omega
    have huk_v : (lockedAfter u s.max_login_attempts k).email_verified = true := hv
    have huk_w : verify_password wp
        (lockedAfter u s.max_login_attempts k).hashed_password = false := hw
    have huk_f : (lockedAfter u s.max_login_attempts k).failed_login_attempts
        = k := rfl
    have huk_e : (lockedAfter u s.max_login_attempts k).email = u.email := rfl
    have hlog := login_user_wrong s (loginIter s u.email wp now k db) wp now
      (lockedAfter u s.max_login_attempts k) (huk_e ▸ ihk.1) huk_v huk_l huk_w
    have hstep : wrongStep s (lockedAfter u s.max_login_attempts k)
        = lockedAfter u s.max_login_attempts (k + 1) := by
      have harith :
          (if k + 1 ≥ s.max_login_attempts then true
            else decide (s.max_login_attempts ≤ k))
          = decide (s.max_login_attempts ≤ k + 1) := by
        by_cases hc : s.max_login_attempts ≤ k + 1
        · simp [hc]
        · have hck : ¬ (s.max_login_attempts ≤ k) := by omega
          simp [hc, hck]
      cases u
      simp_all [wrongStep, lockedAfter]
    have hlog2 : login_user s (loginIter s u.email wp now k db) u.email wp now
        = (none, updateUser (loginIter s u.email wp now k db)
            (wrongStep s (lockedAfter u s.max_login_attempts k))) := hlog
    show EmailInv (login_user s (loginIter s u.email wp now k db) u.email wp
      now).2 u.email (lockedAfter u s.max_login_attempts (k + 1))
    rw [hlog2]
    exact hstep ▸ (EmailInv_update u.email
      (lockedAfter u s.max_login_attempts k)
      (wrongStep s (lockedAfter u s.max_login_attempts k)) rfl rfl _ ihk)

/-- C1: evaluating `create` at a valid registration on an empty
database shows the operation succeeding — the account is persisted and
returned — while the email collaborator queue stays empty and the
stored verification token is null: the source's `create` never invokes
its `email_service` argument and never calls
`generate_verification_token`, so no verification token is generated
and no verification email is queued before the operation returns. -/
theorem create_succeeds_without_token_or_email :
    ∃ u : User,
      create [] "a@x.com" "a" "Secret123!" 1 0 [] = (some u, [u], [])
      ∧ u.verification_token = none :=
  ⟨_, rfl, rfl⟩

/-- C2 counterexample: deleting an existing account while the direct
`session.delete`/`session.commit` in `delete` fails raises the
persistence error out of the service instead of returning the sentinel:
a raw persistence exception does propagate past the service boundary. -/
theorem delete_commit_failure_propagates :
    delete_user [mkUser 1 "a@x.com" "a" "pw"] 1 false true
      = Except.error DBError.sqlalchemy :=
  rfl

/-- C2 (amended): gateway failures on the `_execute_query` path are
absorbed — a failing fetch returns the sentinel `none` — while `delete`
raises a persistence error exactly when its lookup succeeded and the
direct commit fails, so the absorb-and-report-null policy holds for
operations routed through `_execute_query` but not for the direct
commits. -/
theorem execute_query_absorbs_but_delete_commit_raises :
    (∀ (db : DB) (p : User → Bool), fetch_user db true p = none)
    ∧ (∀ (db : DB) (uid : Nat) (ff cf : Bool),
        delete_user db uid ff cf = Except.error DBError.sqlalchemy ↔
          ff = false ∧ (db.find? (fun x => x.id == uid)).isSome = true
            ∧ cf = true) := by
  refine ⟨fun db p => rfl, ?_⟩
  intro db uid ff cf
  cases ff
  · cases hfind : db.find? (fun x => x.id == uid) with
    | none => cases cf <;> simp [delete_user, fetch_user, hfind]
    | some u => cases cf <;> simp [delete_user, fetch_user, hfind]
  · cases cf <;> simp [delete_user, fetch_user]

theorem execute_query_absorbs_witness :
    fetch_user sampleDB true (fun u => u.id == 1) = none
    ∧ (delete_user sampleDB 1 false true = Except.error DBError.sqlalchemy
      ↔ false = false ∧ (sampleDB.find? (fun x => x.id == 1)).isSome = true
        ∧ true = true) :=
  ⟨execute_query_absorbs_but_delete_commit_raises.1 sampleDB
      (fun u => u.id == 1),
    execute_query_absorbs_but_delete_commit_raises.2 sampleDB 1 false true⟩

/-- C3 counterexample: with "a@x.com" already registered, a `create`
whose email differs only in letter case returns a new account and the
database afterwards holds two accounts — the duplicate check is a
case-sensitive exact match, so the case-insensitive collision is not
detected and a duplicate (up to case) is persisted. -/
theorem create_case_variant_email_not_blocked :
    (create [mkUser 1 "a@x.com" "a" "Secret123!"]
        "A@X.com" "b" "Other123!" 2 0 []).1.isSome = true
    ∧ ((create [mkUser 1 "a@x.com" "a" "Secret123!"]
        "A@X.com" "b" "Other123!" 2 0 []).2.1).length = 2 :=
  ⟨rfl, rfl⟩

/-- C3 (amended): the duplicate-email check at creation time is a
case-sensitive exact match: when some existing account carries exactly
the requested email string, `create` fails (returns no account) and
persists nothing — database and email queue are unchanged. -/
theorem create_exact_duplicate_email_fails (db : DB)
    (email nickname pw : String) (nid now : Nat) (emails : List EmailMsg)
    (h : (get_by_email db email).isSome = true) :
    create db email nickname pw nid now emails = (none, db, emails) := by
  simp [create, h]

theorem create_exact_duplicate_email_fails_witness :
    (get_by_email [mkUser 1 "a@x.com" "a" "Secret123!"] "a@x.com").isSome
        = true
    ∧ create [mkUser 1 "a@x.com" "a" "Secret123!"] "a@x.com" "b" "Other123!"
        2 0 [] = (none, [mkUser 1 "a@x.com" "a" "Secret123!"], []) :=
  ⟨rfl, create_exact_duplicate_email_fails
    [mkUser 1 "a@x.com" "a" "Secret123!"] "a@x.com" "b" "Other123!" 2 0 []
    rfl⟩

/-- C5: login with the correct password on a verified, unlocked account
returns that account with its failure counter reset to 0 and its
last-login timestamp set to a value at least the call time, and
persists the updated row. -/
theorem login_success_resets_counter_and_sets_timestamp
    (s : Settings) (db : DB) (email p : String) (now : Nat) (u : User)
    (h : get_by_email db email = some u)
    (hv : u.email_verified = true) (hl : u.is_locked = false)
    (hp : verify_password p u.hashed_password = true) :
    ∃ v, login_user s db email p now = (some v, updateUser db v)
      ∧ v.id = u.id ∧ v.email = u.email
      ∧ v.failed_login_attempts = 0
      ∧ ∃ t, v.last_login_at = some t ∧ now ≤ t := by
  refine ⟨{ u with failed_login_attempts := 0, last_login_at := some now },
    ?_, rfl, rfl, rfl, now, rfl, Nat.le_refl now⟩
  simp [login_user, h, hv, hl, hp]

theorem login_success_witness :
    get_by_email sampleDB "a@x.com" = some sampleU
    ∧ sampleU.email_verified = true
    ∧ sampleU.is_locked = false
    ∧ verify_password "Secret123!" sampleU.hashed_password = true
    ∧ ∃ v, login_user ⟨3⟩ sampleDB "a@x.com" "Secret123!" 7
        = (some v, updateUser sampleDB v)
      ∧ v.id = sampleU.id ∧ v.email = sampleU.email
      ∧ v.failed_login_attempts = 0
      ∧ ∃ t, v.last_login_at = some t ∧ 7 ≤ t :=
  ⟨rfl, rfl, rfl, rfl,
    login_success_resets_counter_and_sets_timestamp ⟨3⟩ sampleDB "a@x.com"
      "Secret123!" 7 sampleU rfl rfl rfl rfl⟩

/-- C7: a `verify_email_with_token` call on an existing account whose
supplied token does not equal the stored verification token returns
false and leaves the database — hence every field of the account —
unchanged. -/
theorem verify_email_wrong_token_unchanged
    (db : DB) (uid : Nat) (tok : String) (u : User)
    (h : get_by_id db uid = some u)
    (ht : u.verification_token ≠ some tok) :
    verify_email_with_token db uid tok = (false, db) := by
  have htb : (u.verification_token == some tok) = false := by simpa using ht
  cases hev : u.email_verified
  · simp [verify_email_with_token, h, hev, htb]
  · simp [verify_email_with_token, h, hev]

theorem verify_email_wrong_token_witness :
    get_by_id [unverifiedU] 1 = some unverifiedU
    ∧ unverifiedU.verification_token ≠ some "t2"
    ∧ verify_email_with_token [unverifiedU] 1 "t2" = (false, [unverifiedU]) :=
  ⟨rfl, by decide,
    verify_email_wrong_token_unchanged [unverifiedU] 1 "t2" unverifiedU rfl
      (by decide)⟩

/-- C9: a login that fails before the password check — unknown email,
unverified account, or locked account — returns no user and leaves the
database unchanged, so no account field is modified: the failure
counter is not incremented and lock state and last-login time keep
their prior values. -/
theorem login_prefail_frame
    (s : Settings) (db : DB) (email p : String) (now : Nat)
    (h : get_by_email db email = none
      ∨ ∃ u, get_by_email db email = some u
          ∧ (u.email_verified = false ∨ u.is_locked = true)) :
    login_user s db email p now = (none, db) := by
  rcases h with h | ⟨u, hu, hc | hc⟩
  · simp [login_user, h]
  · simp [login_user, hu, hc]
  · cases hev : u.email_verified
    · simp [login_user, hu, hev]
    · simp [login_user, hu, hev, hc]

theorem login_prefail_frame_witness :
    (get_by_email [lockedU] "a@x.com" = none
      ∨ ∃ u, get_by_email [lockedU] "a@x.com" = some u
        ∧ (u.email_verified = false ∨ u.is_locked = true))
    ∧ login_user ⟨3⟩ [lockedU] "a@x.com" "Secret123!" 7
      = (none, [lockedU]) :=
  ⟨Or.inr ⟨lockedU, rfl, Or.inr rfl⟩,
    login_prefail_frame ⟨3⟩ [lockedU] "a@x.com" "Secret123!" 7
      (Or.inr ⟨lockedU, rfl, Or.inr rfl⟩)⟩

/-- C6: a `verify_email_with_token` call on an unverified account whose
stored token equals the supplied one returns true and stores the
account verified, with the token cleared, and with the role changed to
AUTHENTICATED exactly when the prior role was ANONYMOUS (any other role
is left unchanged); every subsequent call on that account, with the
same or any token, returns false. -/
theorem verify_email_correct_token_once
    (db : DB) (uid : Nat) (tok : String) (u : User)
    (h : get_by_id db uid = some u)
    (hv : u.email_verified = false)
    (ht : u.verification_token = some tok) :
    ∃ v db2,
      verify_email_with_token db uid tok = (true, db2)
      ∧ get_by_id db2 uid = some v
      ∧ v.email_verified = true
      ∧ v.verification_token = none
      ∧ (u.role = UserRole.ANONYMOUS → v.role = UserRole.AUTHENTICATED)
      ∧ (u.role ≠ UserRole.ANONYMOUS → v.role = u.role)
      ∧ ∀ tok2, verify_email_with_token db2 uid tok2 = (false, db2) := by
  refine ⟨verifiedStep u, updateUser db (verifiedStep u),
    ?_, ?_, rfl, rfl, ?_, ?_, ?_⟩
  · simp [verify_email_with_token, h, hv, ht, verifiedStep]
  · exact get_by_id_update db uid u (verifiedStep u) h rfl
  · intro hr
    simp [verifiedStep, hr]
  · intro hr
    simp [verifiedStep, hr]
  · intro tok2
    have h2 : get_by_id (updateUser db (verifiedStep u)) uid
        = some (verifiedStep u) :=
      get_by_id_update db uid u (verifiedStep u) h rfl
    have hev : (verifiedStep u).email_verified = true := rfl
    simp [verify_email_with_token, h2, hev]

theorem verify_email_correct_token_witness :
    get_by_id [unverifiedU] 1 = some unverifiedU
    ∧ unverifiedU.email_verified = false
    ∧ unverifiedU.verification_token = some "t1"
    ∧ ∃ v db2,
        verify_email_with_token [unverifiedU] 1 "t1" = (true, db2)
        ∧ get_by_id db2 1 = some v
        ∧ v.email_verified = true
        ∧ v.verification_token = none
        ∧ (unverifiedU.role = UserRole.ANONYMOUS →
            v.role = UserRole.AUTHENTICATED)
        ∧ (unverifiedU.role ≠ UserRole.ANONYMOUS → v.role = unverifiedU.role)
        ∧ ∀ tok2, verify_email_with_token db2 1 tok2 = (false, db2) :=
  ⟨rfl, rfl, rfl,
    verify_email_correct_token_once [unverifiedU] 1 "t1" unverifiedU rfl rfl
      rfl⟩

/-- C8: for every existing account — whatever its prior lock state and
failure count — `reset_password` returns true and stores the account
with the new password hash, a zero failure counter and the lock
cleared; on a verified account a subsequent login with the new password
then succeeds; and `reset_password` on a nonexistent id returns false
with the database unchanged. -/
theorem reset_password_unlocks_and_new_password_works :
    (∀ (db : DB) (u : User) (np : String),
      EmailInv db u.email u →
      reset_password db u.id np = (true, updateUser db (resetStep np u))
      ∧ (resetStep np u).hashed_password = hash_password np
      ∧ (resetStep np u).failed_login_attempts = 0
      ∧ (resetStep np u).is_locked = false
      ∧ (u.email_verified = true →
          ∀ (s : Settings) (now : Nat),
            ∃ w, (login_user s (updateUser db (resetStep np u)) u.email np
                now).1 = some w
              ∧ w.id = u.id))
    ∧ (∀ (db : DB) (uid : Nat) (np : String),
        get_by_id db uid = none → reset_password db uid np = (false, db)) := by
  constructor
  · intro db u np hinv
    have hid := get_by_id_of_EmailInv u.email u db hinv
    refine ⟨?_, rfl, rfl, rfl, ?_⟩
    · simp [reset_password, hid, resetStep]
    · intro hv s now
      have hinv2 := EmailInv_update u.email u (resetStep np u) rfl rfl db hinv
      have hget := hinv2.1
      have hvv : (resetStep np u).email_verified = true := hv
      have hvl : (resetStep np u).is_locked = false := rfl
      have hvp : verify_password np (resetStep np u).hashed_password
          = true := by
        simp [resetStep, verify_password]
      have key := login_user_correct s (updateUser db (resetStep np u))
        u.email np now (resetStep np u) hget hvv hvl hvp
      refine ⟨{ resetStep np u with
        failed_login_attempts := 0, last_login_at := some now }, ?_, rfl⟩
      rw [key]
  · intro db uid np h
    simp [reset_password, h]

theorem reset_password_witness :
    EmailInv [lockedU] lockedU.email lockedU
    ∧ (reset_password [lockedU] lockedU.id "NewPass1!"
        = (true, updateUser [lockedU] (resetStep "NewPass1!" lockedU))
      ∧ (resetStep "NewPass1!" lockedU).hashed_password
          = hash_password "NewPass1!"
      ∧ (resetStep "NewPass1!" lockedU).failed_login_attempts = 0
      ∧ (resetStep "NewPass1!" lockedU).is_locked = false
      ∧ (lockedU.email_verified = true →
          ∀ (s : Settings) (now : Nat),
            ∃ w, (login_user s (updateUser [lockedU]
                (resetStep "NewPass1!" lockedU)) lockedU.email "NewPass1!"
                now).1 = some w
              ∧ w.id = lockedU.id))
    ∧ (get_by_id [] 9 = none ∧ reset_password [] 9 "x" = (false, [])) :=
  ⟨by decide,
    reset_password_unlocks_and_new_password_works.1 [lockedU] lockedU
      "NewPass1!" (by decide),
    rfl,
    reset_password_unlocks_and_new_password_works.2 [] 9 "x" rfl⟩

/-- C4: starting from a verified, unlocked account with a clean failure
counter, N consecutive logins with a wrong password — N being the
configured maximum — leave the account unlocked after the first N-1
attempts and locked after the Nth, and the (N+1)th login attempt
returns no account and changes nothing, whatever password (including
the correct one) is supplied. -/
theorem login_lockout_after_max_attempts
    (s : Settings) (db : DB) (u : User) (wp : String) (now : Nat)
    (hN : 1 ≤ s.max_login_attempts)
    (h : EmailInv db u.email u)
    (hv : u.email_verified = true) (hl : u.is_locked = false)
    (hf : u.failed_login_attempts = 0)
    (hw : verify_password wp u.hashed_password = false) :
    (∀ up, get_by_email (loginIter s u.email wp now
        (s.max_login_attempts - 1) db) u.email = some up →
      up.is_locked = false)
    ∧ (∃ uN, get_by_email (loginIter s u.email wp now
        s.max_login_attempts db) u.email = some uN ∧ uN.is_locked = true)
    ∧ ∀ cp, login_user s (loginIter s u.email wp now s.max_login_attempts db)
        u.email cp now
      = (none, loginIter s u.email wp now s.max_login_attempts db) := by
  have hstate := loginIter_state s db u wp now hN h hv hl hf hw
  have hN1 := hstate (s.max_login_attempts - 1) (by omega)
  have hNN := hstate s.max_login_attempts (Nat.le_refl _)
  refine ⟨?_, ⟨_, hNN.1, ?_⟩, ?_⟩
  · intro up hup
    have hup2 : up
        = lockedAfter u s.max_login_attempts (s.max_login_attempts - 1) :=
      (Option.some.inj (hN1.1.symm.trans hup)).symm
    rw [hup2]
    simp [lockedAfter]
    omega
  · simp [lockedAfter]
  · intro cp
    have hget := hNN.1
    simp [login_user, hget, lockedAfter, hv]

theorem login_lockout_witness :
    1 ≤ (Settings.mk 2).max_login_attempts
    ∧ EmailInv sampleDB sampleU.email sampleU
    ∧ sampleU.email_verified = true
    ∧ sampleU.is_locked = false
    ∧ sampleU.failed_login_attempts = 0
    ∧ verify_password "wrong" sampleU.hashed_password = false
    ∧ ((∀ up, get_by_email (loginIter (Settings.mk 2) sampleU.email "wrong" 7
          ((Settings.mk 2).max_login_attempts - 1) sampleDB) sampleU.email
          = some up →
        up.is_locked = false)
      ∧ (∃ uN, get_by_email (loginIter (Settings.mk 2) sampleU.email "wrong" 7
          (Settings.mk 2).max_login_attempts sampleDB) sampleU.email
          = some uN ∧ uN.is_locked = true)
      ∧ ∀ cp, login_user (Settings.mk 2) (loginIter (Settings.mk 2)
            sampleU.email "wrong" 7 (Settings.mk 2).max_login_attempts
            sampleDB) sampleU.email cp 7
        = (none, loginIter (Settings.mk 2) sampleU.email "wrong" 7
            (Settings.mk 2).max_login_attempts sampleDB)) :=
  ⟨by decide, by decide, rfl, rfl, rfl, by decide,
    login_lockout_after_max_attempts (Settings.mk 2) sampleDB sampleU "wrong"
      7 (by decide) (by decide) rfl rfl rfl (by decide)⟩

/-- C10: with a non-empty account-status string s (and no other
filters), `search_users` returns exactly the accounts whose is_locked
equals (lowercase s = "locked") — windowed by skip/limit and mapped to
response rows; and an empty-string account_status, like an empty string
in any of the string filter arguments, applies no filter at all. -/
theorem search_account_status_filter :
    (∀ (db : DB) (s : String) (skip limit : Nat), s ≠ "" →
      search_users db none none none none none (some s) none none skip limit
        = (((db.filter (fun u => u.is_locked == (s.toLower == "locked"))).drop
            skip).take limit).map toUserResponse)
    ∧ (∀ (db : DB) (un em fn ln : Option String) (ro : Option UserRole)
        (rf rt : Option Nat) (skip limit : Nat),
        search_users db un em fn ln ro (some "") rf rt skip limit
          = search_users db un em fn ln ro none rf rt skip limit)
    ∧ (∀ (db : DB) (ro : Option UserRole) (rf rt : Option Nat)
        (skip limit : Nat),
        search_users db (some "") (some "") (some "") (some "") ro (some "")
            rf rt skip limit
          = search_users db none none none none ro none rf rt skip limit) := by
  refine ⟨?_, ?_, ?_⟩
  · intro db s skip limit hs
    have hsb : (s == "") = false := by simpa using hs
    simp [search_users, filterOptCI, hsb]
  · intro db un em fn ln ro rf rt skip limit
    simp [search_users]
  · intro db ro rf rt skip limit
    simp [search_users, filterOptCI]

theorem search_account_status_witness :
    "locked" ≠ ""
    ∧ search_users searchDB none none none none none (some "locked") none
        none 0 10
      = (((searchDB.filter (fun u => u.is_locked
          == ("locked".toLower == "locked"))).drop 0).take 10).map
          toUserResponse :=
  ⟨by decide,
    search_account_status_filter.1 searchDB "locked" 0 10 (by decide)⟩

end UserMgmt
